import Mathlib

/-!
# Verification of the domain-fi rarity scorer and trending ranker

Shallow embedding of `src/lib/scoring.ts`, `src/lib/doma-api.ts` and
`src/lib/trending/algorithms/real-data-trending.ts`.

Modelling conventions:
* JS numbers are modelled as `ℚ` (for fractional factors) or `ℕ`/`ℤ`
  (for integer-valued scores); `Math.round` is `jsRound` below, which is
  `⌊x + 1/2⌋` (JS rounds halves toward +∞).
* ISO timestamp strings are modelled by the instant they parse to, in
  milliseconds (`Int`); `new Date()` / `Date.now()` is an explicit `now`
  parameter threaded into the functions that read the clock.
* A possibly-absent JS field is an `Option`; JS string truthiness
  (`undefined` and `""` are falsy) is made explicit at each use site.
* `String.toLower` lower-cases ASCII letters, which matches
  `String.prototype.toLowerCase` on the ASCII inputs considered here.
-/

namespace DomainFi

/-- JS `Math.round`: round half toward +∞. -/
def jsRound (x : ℚ) : ℤ := ⌊x + 1 / 2⌋

/-! ### String helpers

Executable models of the JS string primitives the source uses, written
over the character list of the string so that the kernel can evaluate
them on concrete inputs. -/

/-- `String.prototype.toLowerCase` (the source only ever feeds it ASCII
domain names; `Char.toLower` lower-cases exactly ASCII `A`-`Z`). -/
def toLowerStr (s : String) : String := ⟨s.data.map Char.toLower⟩

/-- All characters of `s` satisfy `p`. -/
def strAll (p : Char → Bool) (s : String) : Bool := s.data.all p

/-- `s === ""`. -/
def strIsEmpty (s : String) : Bool := s.data.isEmpty

/-- Auxiliary for `splitOnDot`: `acc` holds the current segment reversed. -/
def splitOnDotAux : List Char → List Char → List String
  | [], acc => [⟨acc.reverse⟩]
  | c :: cs, acc =>
    if c == '.' then (⟨acc.reverse⟩ : String) :: splitOnDotAux cs []
    else splitOnDotAux cs (c :: acc)

/-- `String.prototype.split('.')`: e.g. `"a.com" ↦ ["a", "com"]`,
`"" ↦ [""]`, `"." ↦ ["", ""]`.  Never returns an empty list. -/
def splitOnDot (s : String) : List String := splitOnDotAux s.data []

/-- `needle` occurs as a contiguous run at the front of `hay`. -/
def leadsWith : List Char → List Char → Bool
  | [], _ => true
  | _ :: _, [] => false
  | a :: as, b :: bs => a == b && leadsWith as bs

/-- `String.prototype.includes`: `needle` occurs contiguously in `hay`. -/
def appearsIn (needle : List Char) : List Char → Bool
  | [] => needle.isEmpty
  | c :: tl => leadsWith needle (c :: tl) || appearsIn needle tl

/-- ASCII `[a-z]` character class. -/
def isLowerAlphaCh (c : Char) : Bool := 'a'.toNat ≤ c.toNat && c.toNat ≤ 'z'.toNat

/-- ASCII `[0-9]` character class. -/
def isDigitCh (c : Char) : Bool := '0'.toNat ≤ c.toNat && c.toNat ≤ '9'.toNat

/-- ASCII `[A-Z]` character class. -/
def isUpperAlphaCh (c : Char) : Bool := 'A'.toNat ≤ c.toNat && c.toNat ≤ 'Z'.toNat

/-- ASCII `[a-zA-Z]` character class (the `/i` regex flag). -/
def isAlphaCh (c : Char) : Bool := isLowerAlphaCh c || isUpperAlphaCh c

/-- ASCII `[a-zA-Z0-9]` character class. -/
def isAlnumCh (c : Char) : Bool := isAlphaCh c || isDigitCh c

/-- ASCII `[a-zA-Z0-9-]` character class. -/
def isAlnumHyphenCh (c : Char) : Bool := isAlnumCh c || c == '-'

/-! ## Data model (from `src/lib/graphql.ts`) -/

/-- Element of the `nameActivities` response (`graphql.ts`); the scorer
only ever reads the length of the activities array. -/
structure DomainActivity where
  id : String
  type : String
  timestamp : String
  price : String
  currency : String
  from_addr : String
  to_addr : String
  transactionHash : String
deriving DecidableEq

/-- `Domain` record (`graphql.ts`).  `createdAt` is an ISO string in the
source; it is modelled by the instant it parses to, in ms since epoch. -/
structure Domain where
  id : String
  labelName : String
  labelhash : String
  createdAt : Int
deriving DecidableEq

/-- `DomainStats` record (`graphql.ts`). -/
structure DomainStats where
  id : String
  salesCount : Nat
  totalVolume : String
  averagePrice : String
  lastSalePrice : String
  lastSaleTimestamp : String
deriving DecidableEq

/-! ## Rarity scorer (from `src/lib/scoring.ts`) -/

namespace Scoring

/-- `SCORING_WEIGHTS` hyperparameter table. -/
def SCORING_WEIGHTS_LENGTH : ℚ := 0.25
def SCORING_WEIGHTS_PATTERN : ℚ := 0.20
def SCORING_WEIGHTS_TLD : ℚ := 0.20
def SCORING_WEIGHTS_ACTIVITY : ℚ := 0.25
def SCORING_WEIGHTS_EXPIRATION : ℚ := 0.10

/-- `TLD_RARITY` lookup table (keys include the leading dot). -/
def TLD_RARITY : List (String × ℚ) :=
  [(".sol", 1.0), (".core", 1.0), (".ape", 1.0),
   (".com", 0.8), (".org", 0.8), (".net", 0.8),
   (".app", 0.6), (".dev", 0.6), (".io", 0.6),
   (".info", 0.4), (".biz", 0.4), (".co", 0.4)]

/-- The `breakdown` part of the `DomainScore` output. -/
structure ScoreBreakdownFields where
  length : ℤ
  pattern : ℤ
  tld : ℤ
  activity : ℤ
  expiration : ℤ
deriving DecidableEq

/-- The `factors` (rationale strings) part of the `DomainScore` output. -/
structure ScoreFactors where
  length : String
  pattern : String
  tld : String
  activity : String
  expiration : String
deriving DecidableEq

/-- `DomainScore` output record of `calculateDomainScore`. -/
structure DomainScore where
  totalScore : ℤ
  breakdown : ScoreBreakdownFields
  factors : ScoreFactors
deriving DecidableEq


/-- Test for an anchored regex `^cls+$`: one or more characters, all in
the class `cls`. -/
def matchPlus (cls : Char → Bool) (s : String) : Bool :=
  !strIsEmpty s && strAll cls s

/-- `calculateLengthScore` (scoring.ts:102).  NOTE: the source only
clamps from below (`Math.max(0, …)`); there is no upper clamp, so labels
shorter than 3 characters produce a value strictly greater than 1. -/
def calculateLengthScore (domainName : String) : ℚ :=
  let length := domainName.length
  let minLength : ℚ := 3
  let maxLength : ℚ := 23
  max 0 (1 - ((length : ℚ) - minLength) / (maxLength - minLength))

/-- `calculatePatternScore` (scoring.ts:114). -/
def calculatePatternScore (domainName : String) : ℚ :=
  let name := toLowerStr domainName
  if matchPlus isLowerAlphaCh name || matchPlus isDigitCh name then 1.0
  else if matchPlus (fun c => isLowerAlphaCh c || isDigitCh c) name then 0.8
  else if matchPlus (fun c => isLowerAlphaCh c || isDigitCh c || c == '-') name then 0.6
  else 0.3

/-- `calculateTLDScore` (scoring.ts:139): `TLD_RARITY[tld.toLowerCase()] || 0.5`.
No table entry is `0`, so `|| 0.5` fires exactly on a missing key. -/
def calculateTLDScore (tld : String) : ℚ :=
  match TLD_RARITY.lookup (toLowerStr tld) with
  | some v => v
  | none => 0.5

/-- `calculateActivityScore` (scoring.ts:146).  When `stats` is absent
the function returns `0.2` immediately, without looking at `activities`. -/
def calculateActivityScore (stats : Option DomainStats)
    (activities : Option (List DomainActivity)) : ℚ :=
  match stats with
  | none => 0.2
  | some s =>
    let salesCount := s.salesCount
    let activityCount := (activities.map List.length).getD 0
    if salesCount ≥ 10 ∨ activityCount ≥ 10 then 1.0
    else if salesCount ≥ 3 ∨ activityCount ≥ 3 then 0.7
    else if salesCount ≥ 1 ∨ activityCount ≥ 1 then 0.4
    else 0.2

/-- `calculateExpirationScore` (scoring.ts:174).  Reads the clock
(`new Date()`), modelled by the explicit `now` parameter (ms). -/
def calculateExpirationScore (createdAt : Int) (now : Int) : ℚ :=
  let daysSinceCreation : ℚ := ((now : ℚ) - (createdAt : ℚ)) / (1000 * 60 * 60 * 24)
  let maxDuration : ℚ := 365
  let remainingDays := max 0 (maxDuration - daysSinceCreation)
  min 1 (remainingDays / maxDuration)

/-- `extractTLD` (scoring.ts:189). -/
def extractTLD (fullDomain : String) : String :=
  let parts := splitOnDot fullDomain
  if parts.length > 1 then "." ++ parts.getLastD "" else ""

/-- `getLengthDescription` (scoring.ts:197). -/
def getLengthDescription (length : Nat) : String :=
  if length ≤ 4 then "Very short - highly valuable"
  else if length ≤ 6 then "Short - good value"
  else if length ≤ 8 then "Medium length - moderate value"
  else if length ≤ 12 then "Long - lower value"
  else "Very long - minimal value"

/-- `getPatternDescription` (scoring.ts:205). -/
def getPatternDescription (domainName : String) : String :=
  let name := toLowerStr domainName
  if matchPlus isLowerAlphaCh name then "Pure letters - premium brandable"
  else if matchPlus isDigitCh name then "Pure numbers - numeric value"
  else if matchPlus (fun c => isLowerAlphaCh c || isDigitCh c) name then "Alphanumeric - good brandable"
  else if matchPlus (fun c => isLowerAlphaCh c || isDigitCh c || c == '-') name then "With hyphens - acceptable"
  else "Complex pattern - lower value"

/-- `getTLDDescription` (scoring.ts:215).  A missing table entry gives
`undefined`, on which every `>=` comparison is false. -/
def getTLDDescription (tld : String) : String :=
  match TLD_RARITY.lookup (toLowerStr tld) with
  | some score =>
    if score ≥ 1.0 then "Premium TLD - high value"
    else if score ≥ 0.8 then "Common TLD - good value"
    else if score ≥ 0.6 then "New TLD - moderate value"
    else if score ≥ 0.4 then "Generic TLD - lower value"
    else "Unknown TLD - uncertain value"
  | none => "Unknown TLD - uncertain value"

/-- `getActivityDescription` (scoring.ts:224). -/
def getActivityDescription (stats : Option DomainStats)
    (activities : Option (List DomainActivity)) : String :=
  match stats with
  | none => "No trading history"
  | some s =>
    let salesCount := s.salesCount
    let activityCount := (activities.map List.length).getD 0
    if salesCount ≥ 10 ∨ activityCount ≥ 10 then "High trading activity - proven demand"
    else if salesCount ≥ 3 ∨ activityCount ≥ 3 then "Moderate activity - some interest"
    else if salesCount ≥ 1 ∨ activityCount ≥ 1 then "Low activity - limited interest"
    else "No trading activity - untested market"

/-- `getExpirationDescription` (scoring.ts:236); also reads the clock. -/
def getExpirationDescription (createdAt : Int) (now : Int) : String :=
  let daysSinceCreation : ℚ := ((now : ℚ) - (createdAt : ℚ)) / (1000 * 60 * 60 * 24)
  if daysSinceCreation < 30 then "Recently registered - fresh"
  else if daysSinceCreation < 180 then "Recently registered - established"
  else if daysSinceCreation < 365 then "Mature registration - stable"
  else "Long-term registration - very stable"

/-- `calculateDomainScore` (scoring.ts:56), the rarity scorer.  `now` is
the clock instant at which the call runs (read twice in the source, by
`calculateExpirationScore` and `getExpirationDescription`, within the
same call). -/
def calculateDomainScore (domain : Domain) (stats : Option DomainStats)
    (activities : Option (List DomainActivity)) (now : Int) : DomainScore :=
  let domainName := domain.labelName
  let tld := extractTLD domain.id
  let lengthScore := calculateLengthScore domainName
  let patternScore := calculatePatternScore domainName
  let tldScore := calculateTLDScore tld
  let activityScore := calculateActivityScore stats activities
  let expirationScore := calculateExpirationScore domain.createdAt now
  let totalScore := jsRound
    ((SCORING_WEIGHTS_LENGTH * lengthScore +
      SCORING_WEIGHTS_PATTERN * patternScore +
      SCORING_WEIGHTS_TLD * tldScore +
      SCORING_WEIGHTS_ACTIVITY * activityScore +
      SCORING_WEIGHTS_EXPIRATION * expirationScore) * 100)
  { totalScore := min 100 (max 0 totalScore)
    breakdown :=
      { length := jsRound (lengthScore * 100)
        pattern := jsRound (patternScore * 100)
        tld := jsRound (tldScore * 100)
        activity := jsRound (activityScore * 100)
        expiration := jsRound (expirationScore * 100) }
    factors :=
      { length := getLengthDescription domainName.length
        pattern := getPatternDescription domainName
        tld := getTLDDescription tld
        activity := getActivityDescription stats activities
        expiration := getExpirationDescription domain.createdAt now } }

end Scoring

/-! ## Boundary validation (from `src/lib/doma-api.ts`) -/

namespace DomaApi

/-- One `.`-separated segment of the domain-name regex in
`isValidDomainName`: `[a-zA-Z0-9]([a-zA-Z0-9-]{0,61}[a-zA-Z0-9])?`,
i.e. a single alphanumeric character, or 2-63 characters whose first and
last are alphanumeric and whose middle characters may also be hyphens. -/
def validLabelSeg (s : String) : Bool :=
  match s.data with
  | [] => false
  | c :: rest =>
    isAlnumCh c &&
      (rest.isEmpty ||
        (rest.length ≤ 62 && isAlnumCh (rest.getLastD c) &&
          rest.dropLast.all isAlnumHyphenCh))

/-- `isValidDomainName` (doma-api.ts:133).  The regex is
`^seg(\.seg)*$` — note the TLD group is starred, so a name with no dot
at all is accepted.  Since a segment cannot contain a `.`, the regex
test is equivalent to: every `.`-separated segment matches `seg`. -/
def isValidDomainName (domainName : String) : Bool :=
  (splitOnDot domainName).all validLabelSeg && domainName.length ≤ 253

end DomaApi

/-! ## Trending ranker
(from `src/lib/trending/algorithms/real-data-trending.ts`) -/

namespace RealDataTrending

/-- The instant a `tokenizedAt` ISO string parses to via `new Date(s)`:
either a time in ms since epoch, or `invalid` when the parse yields
`NaN` (on which every `<`/`>=` comparison is false in JS). -/
inductive DateVal where
  | invalid
  | timeMs (ms : Int)
deriving DecidableEq

/-- `new Date(s).getTime() >= x` (false when the parse gave `NaN`). -/
def DateVal.geMs (d : DateVal) (x : Int) : Bool :=
  match d with
  | .invalid => false
  | .timeMs t => x ≤ t

/-- `new Date(s).getTime() < x` (false when the parse gave `NaN`). -/
def DateVal.ltMs (d : DateVal) (x : Int) : Bool :=
  match d with
  | .invalid => false
  | .timeMs t => t < x

/-- Input element of `RealDataTrendingAlgorithm.execute` (the `unknown`
records fetched from the API).  `none` in `name` models a missing field;
`some ""` an empty string (both are falsy in JS).  `tokenizedAt = none`
models a missing or empty string; `some d` a non-empty string parsing to
`d`.  `listingPrice` is the parsed wei amount of the listing-price
string, `none` when the field is missing or empty (falsy); an
unparseable non-empty string behaves exactly like `some 0` in
`calculatePriceScore` (every `>=` tier test on `NaN` is false), so it
needs no separate constructor. -/
structure TrendingInput where
  name : Option String
  listingPrice : Option ℚ
  activeOffersCount : Option Nat
  tokenizedAt : Option DateVal
  activityCount : Option Nat

/-- Output element (`RankedDomain`): the fields copied back by
`calculateTrendingScores` plus the computed scores. -/
structure RankedDomain where
  name : Option String
  listingPrice : Option ℚ
  activeOffersCount : Option Nat
  tokenizedAt : Option DateVal
  trendingScore : ℤ
  priceScore : Nat
  activityScore : Nat
  offersScore : Nat
  characteristicsScore : Nat
  activityCount : Nat

/-- `TrendingAlgorithmConfig` (trending/algorithms/types.ts); only
`limit` is read by this algorithm. -/
structure TrendingAlgorithmConfig where
  limit : Nat

/-- Truthiness of the `name` field: present and non-empty. -/
def truthyName (o : Option String) : Bool :=
  match o with
  | none => false
  | some s => !strIsEmpty s

/-- The validity predicate of the pre-filter
(`typedDomain.tokenizedAt && typedDomain.name`): both fields truthy. -/
def isValidRecord (d : TrendingInput) : Bool :=
  d.tokenizedAt.isSome && truthyName d.name

/-- `filterRecentDomains` (real-data-trending.ts:29).  Reads
`Date.now()`, modelled by the explicit `now` parameter (ms). -/
def filterRecentDomains (domains : List TrendingInput) (now : Int) :
    List TrendingInput :=
  let validDomains := domains.filter isValidRecord
  if validDomains.length ≥ 20 then
    let dayMs : Int := 24 * 60 * 60 * 1000
    let sevenDaysAgo := now - 7 * dayMs
    let recentDomains := validDomains.filter fun d =>
      (d.tokenizedAt.getD .invalid).geMs sevenDaysAgo
    let olderDomains := validDomains.filter fun d =>
      (d.tokenizedAt.getD .invalid).ltMs sevenDaysAgo
    let mixedDomains :=
      recentDomains.take (min 20 recentDomains.length) ++
        olderDomains.take (min 15 olderDomains.length)
    if mixedDomains.length > 0 then mixedDomains else validDomains.take 50
  else
    validDomains

/-- The crypto-terms table of `estimatePriceScore`. -/
def cryptoTerms : List String :=
  ["crypto", "nft", "web3", "defi", "dao", "meta", "btc", "eth", "sol",
   "coin", "token", "chain", "block", "dapp", "swap", "dex", "farm",
   "pool", "vault", "yield", "stake", "mint", "burn", "ape", "apex",
   "bitcoin", "ethereum", "solana", "polygon", "avalanche", "chainlink",
   "uniswap", "opensea", "coinbase", "binance"]

/-- `estimatePriceScore` (real-data-trending.ts:150): base 20 plus
length, TLD and crypto-term bonuses, capped at 100. -/
def estimatePriceScore (name : String) : Nat :=
  let domainName := toLowerStr name
  let tld := (splitOnDot domainName).getLastD ""
  let nameWithoutTLD := (splitOnDot domainName).headD ""
  let lengthBonus :=
    if nameWithoutTLD.length ≤ 3 then 40
    else if nameWithoutTLD.length ≤ 5 then 30
    else if nameWithoutTLD.length ≤ 7 then 20
    else if nameWithoutTLD.length ≤ 10 then 10
    else 0
  let tldBonus :=
    if tld = "com" then 20
    else if tld = "ai" then 15
    else if tld = "eth" then 12
    else if tld = "sol" then 10
    else if tld = "io" then 8
    else 0
  let termBonus :=
    if cryptoTerms.any (fun term => appearsIn term.data nameWithoutTLD.data) then 15
    else 0
  min 100 (20 + lengthBonus + tldBonus + termBonus)

/-- `calculatePriceScore` (real-data-trending.ts:131): bucket the
listing price in ETH (wei / 1e18) when present, otherwise estimate from
the name. -/
def calculatePriceScore (listingPrice : Option ℚ) (name : String) : Nat :=
  match listingPrice with
  | some price =>
    let priceInETH := price / 1000000000000000000
    if priceInETH ≥ 0.5 then 100
    else if priceInETH ≥ 0.1 then 80
    else if priceInETH ≥ 0.05 then 60
    else if priceInETH ≥ 0.01 then 40
    else 20
  | none => estimatePriceScore name

/-- `calculateActivityScore` (real-data-trending.ts:182). -/
def calculateActivityScore (activityCount : Nat) : Nat :=
  if activityCount ≥ 10 then 100
  else if activityCount ≥ 5 then 80
  else if activityCount ≥ 3 then 60
  else if activityCount ≥ 2 then 40
  else 20

/-- `calculateOffersScore` (real-data-trending.ts:193). -/
def calculateOffersScore (activeOffersCount : Nat) : Nat :=
  if activeOffersCount ≥ 5 then 100
  else if activeOffersCount ≥ 3 then 80
  else if activeOffersCount ≥ 2 then 60
  else if activeOffersCount ≥ 1 then 40
  else 20

/-- The premium regex `/^[a-z]{1,4}[0-9]{1,3}$/i`: since letters and
digits are disjoint classes, a string matches exactly when its maximal
leading letter run has length 1-4 and the remainder is 1-3 digits. -/
def lettersThenDigitsShape (cs : List Char) : Bool :=
  let letters := cs.takeWhile isAlphaCh
  let rest := cs.dropWhile isAlphaCh
  1 ≤ letters.length && letters.length ≤ 4 &&
    1 ≤ rest.length && rest.length ≤ 3 && rest.all isDigitCh

/-- The premium regex `/^[0-9]{1,3}[a-z]{1,4}$/i`, analogously. -/
def digitsThenLettersShape (cs : List Char) : Bool :=
  let digits := cs.takeWhile isDigitCh
  let rest := cs.dropWhile isDigitCh
  1 ≤ digits.length && digits.length ≤ 3 &&
    1 ≤ rest.length && rest.length ≤ 4 && rest.all isAlphaCh

/-- The common-words table of `calculateCharacteristicsScore`. -/
def commonWords : List String :=
  ["app", "web", "net", "dev", "pro", "max", "min", "top", "new", "old",
   "big", "small", "fast", "slow", "hot", "cool", "win", "lose", "buy",
   "sell", "trade", "swap", "mint", "burn", "stake", "farm", "pool",
   "vault", "yield", "dao", "defi", "nft", "web3", "crypto", "meta",
   "ai", "btc", "eth", "sol"]

/-- `calculateCharacteristicsScore` (real-data-trending.ts:204): base 50
plus length, TLD, premium-pattern and common-word bonuses, capped at
100. -/
def calculateCharacteristicsScore (nameWithoutTLD : String) (tld : String) : Nat :=
  let lengthBonus :=
    if nameWithoutTLD.length ≤ 3 then 30
    else if nameWithoutTLD.length ≤ 5 then 20
    else if nameWithoutTLD.length ≤ 7 then 10
    else 0
  let tldBonus :=
    if tld = "com" then 15
    else if tld = "ai" then 12
    else if tld = "eth" then 10
    else if tld = "sol" then 8
    else if tld = "io" then 6
    else 0
  let patternBonus :=
    if lettersThenDigitsShape nameWithoutTLD.data ||
        digitsThenLettersShape nameWithoutTLD.data then 10
    else 0
  let wordBonus :=
    if commonWords.any (fun word => word == nameWithoutTLD) then 15
    else 0
  min 100 (50 + lengthBonus + tldBonus + patternBonus + wordBonus)

/-- The body of the `map` in `calculateTrendingScores`
(real-data-trending.ts:82-125): score a single domain record. -/
def scoreDomain (d : TrendingInput) : RankedDomain :=
  let domainName := toLowerStr (d.name.getD "")
  let tld := (splitOnDot domainName).getLastD ""
  let nameWithoutTLD := (splitOnDot domainName).headD ""
  let activeOffersCount := d.activeOffersCount.getD 0
  let activityCount :=
    match d.activityCount with
    | some n => if n == 0 then 1 else n
    | none => 1
  let priceScore := calculatePriceScore d.listingPrice (d.name.getD "")
  let activityScore := calculateActivityScore activityCount
  let offersScore := calculateOffersScore activeOffersCount
  let characteristicsScore := calculateCharacteristicsScore nameWithoutTLD tld
  let trendingScore := jsRound
    ((priceScore : ℚ) * 0.2 + (activityScore : ℚ) * 0.2 +
      (offersScore : ℚ) * 0.2 + (characteristicsScore : ℚ) * 0.4)
  { name := d.name
    listingPrice := d.listingPrice
    activeOffersCount := d.activeOffersCount
    tokenizedAt := d.tokenizedAt
    trendingScore := trendingScore
    priceScore := priceScore
    activityScore := activityScore
    offersScore := offersScore
    characteristicsScore := characteristicsScore
    activityCount := activityCount }

/-- `calculateTrendingScores` (real-data-trending.ts:81). -/
def calculateTrendingScores (domains : List TrendingInput) : List RankedDomain :=
  domains.map scoreDomain

/-- The comparator passed to `.sort` in `sortByTrendingScore`
(real-data-trending.ts:238): descending trending score, then descending
activity count, then descending active-offers count. -/
def jsCompare (a b : RankedDomain) : ℤ :=
  if b.trendingScore ≠ a.trendingScore then b.trendingScore - a.trendingScore
  else if (b.activityCount : ℤ) ≠ (a.activityCount : ℤ) then
    (b.activityCount : ℤ) - (a.activityCount : ℤ)
  else (b.activeOffersCount.getD 0 : ℤ) - (a.activeOffersCount.getD 0 : ℤ)

/-- `a` may stay before `b` under the comparator (`jsCompare a b ≤ 0`). -/
def sortLe (a b : RankedDomain) : Prop := jsCompare a b ≤ 0

instance : DecidableRel sortLe := fun a b => Int.decLe (jsCompare a b) 0

/-- `sortByTrendingScore` (real-data-trending.ts:237).  ECMAScript
`Array.prototype.sort` is required to be stable; with a consistent
comparator it is modelled by a stable insertion sort under the relation
"the comparator allows `a` to stay before `b`". -/
def sortByTrendingScore (domains : List RankedDomain) : List RankedDomain :=
  domains.insertionSort sortLe

/-- `RealDataTrendingAlgorithm.execute` (real-data-trending.ts:12):
filter, score, sort, truncate to `config.limit`. -/
def execute (domains : List TrendingInput) (config : TrendingAlgorithmConfig)
    (now : Int) : List RankedDomain :=
  let recentDomains := filterRecentDomains domains now
  let scoredDomains := calculateTrendingScores recentDomains
  let sortedDomains := sortByTrendingScore scoredDomains
  sortedDomains.take config.limit

/-- The descending lexicographic order the ranked output is sorted by:
`a` may come before `b` iff `a` beats-or-ties `b` on
(trendingScore, activityCount, activeOffersCount), compared in that
order, all descending.  (`activeOffersCount` is the copied input field;
the comparator reads it with a `|| 0` default.) -/
def rankedBefore (a b : RankedDomain) : Prop :=
  b.trendingScore < a.trendingScore ∨
    (b.trendingScore = a.trendingScore ∧
      (b.activityCount < a.activityCount ∨
        (b.activityCount = a.activityCount ∧
          b.activeOffersCount.getD 0 ≤ a.activeOffersCount.getD 0)))

instance (a b : RankedDomain) : Decidable (rankedBefore a b) := by
  unfold rankedBefore; infer_instance

/-- The full comparison key of a ranked domain; two domains with the
same key are "residually tied" for the sort. -/
def fullKey (r : RankedDomain) : ℤ × ℕ × ℕ :=
  (r.trendingScore, r.activityCount, r.activeOffersCount.getD 0)

end RealDataTrending

/-! ## Concrete inputs used by the claim evaluations -/

/-- The `Domain` record for `a.com` (label `a`), created at epoch. -/
def aComDomain : Domain := ⟨"a.com", "a", "", 0⟩

/-- 400 days in milliseconds: evaluating the scorer at this instant puts
the creation timestamp of `aComDomain` 400 days in the past. -/
def day400 : Int := 34560000000000

/-- A `Domain` record whose name has no dot (hence no TLD). -/
def noDotDomain : Domain := ⟨"abc", "abc", "", 0⟩

/-- A concrete activity record (the scorer only counts activities). -/
def dummyActivity : DomainActivity := ⟨"", "transfer", "", "", "", "", "", ""⟩

/-- The activity tiering as claim C7 states it, tiered on
`max(salesCount, activityCount)` (spec-side definition, for comparison
with `Scoring.calculateActivityScore`). -/
def claimActivityFactor (salesCount activityCount : Nat) : ℚ :=
  if max salesCount activityCount ≥ 10 then 1.0
  else if max salesCount activityCount ≥ 3 then 0.7
  else if max salesCount activityCount ≥ 1 then 0.4
  else 0.2

/-- A trending input whose `tokenizedAt` is a truthy but unparseable
string (`new Date(s)` gives `NaN`). -/
def badTrendingInput : RealDataTrending.TrendingInput :=
  ⟨some "x.com", none, none, some .invalid, none⟩

/-- A trending input with a parseable `tokenizedAt` at the epoch. -/
def goodTrendingInput : RealDataTrending.TrendingInput :=
  ⟨some "x.com", none, none, some (.timeMs 0), none⟩

/-! ## Shared evaluation lemmas -/

section EvalLemmas

open Scoring

lemma lengthScore_a_eval : calculateLengthScore "a" = 11 / 10 := by
  norm_num [calculateLengthScore, show "a".length = 1 from rfl]

lemma patternScore_a_eval : calculatePatternScore "a" = 1 := by
  norm_num [calculatePatternScore,
    show matchPlus isLowerAlphaCh (toLowerStr "a") = true from rfl]

lemma tldScore_com_eval : calculateTLDScore ".com" = 4 / 5 := by
  norm_num [calculateTLDScore,
    show TLD_RARITY.lookup (toLowerStr ".com") = some ((0.8 : ℚ)) from rfl]

lemma activityScore_none_eval : calculateActivityScore none none = 1 / 5 := by
  norm_num [calculateActivityScore]

lemma expirationScore_day400_eval : calculateExpirationScore 0 day400 = 0 := by
  norm_num [calculateExpirationScore, day400]

lemma expirationScore_day0_eval : calculateExpirationScore 0 0 = 1 := by
  norm_num [calculateExpirationScore]

lemma totalScore_aCom_eval :
    (calculateDomainScore aComDomain none none day400).totalScore = 69 := by
  simp only [calculateDomainScore, aComDomain,
    show extractTLD "a.com" = ".com" from by decide, lengthScore_a_eval,
    patternScore_a_eval, tldScore_com_eval, activityScore_none_eval,
    expirationScore_day400_eval]
  norm_num [jsRound, SCORING_WEIGHTS_LENGTH, SCORING_WEIGHTS_PATTERN,
    SCORING_WEIGHTS_TLD, SCORING_WEIGHTS_ACTIVITY, SCORING_WEIGHTS_EXPIRATION]

lemma breakdown_length_aCom_eval :
    (calculateDomainScore aComDomain none none day400).breakdown.length = 110 := by
  simp only [calculateDomainScore, aComDomain, lengthScore_a_eval]
  norm_num [jsRound]

end EvalLemmas

/-! ## Claim C1 -/

/-- Claim C1, counterexample: for the label `a` with TLD `.com`, no
activity data and a 400-day age, the scorer does NOT return
`totalScore = 76` as claimed (the claim's own arithmetic is off:
`0.25·1+0.20·1+0.20·0.8+0.25·0.2+0.10·0 = 0.66`, and the code's length
factor is `1.1`, not `1.0`, for a length-1 label). -/
theorem c1_totalScore_76_counterexample :
    (Scoring.calculateDomainScore aComDomain none none day400).totalScore ≠ 76 := by
  rw [totalScore_aCom_eval]; decide

/-- Claim C1, amended: for that input the scorer returns
`totalScore = 69 = round(100×(0.25·1.1 + 0.20·1 + 0.20·0.8 + 0.25·0.2 +
0.10·0)) = round(68.5)`, the length factor being `1.1` because
`calculateLengthScore` has no upper clamp. -/
theorem c1_totalScore_amended :
    (Scoring.calculateDomainScore aComDomain none none day400).totalScore = 69 ∧
    Scoring.calculateLengthScore "a" = 11 / 10 ∧
    Scoring.calculatePatternScore "a" = 1 ∧
    Scoring.calculateTLDScore ".com" = 4 / 5 ∧
    Scoring.calculateActivityScore none none = 1 / 5 ∧
    Scoring.calculateExpirationScore 0 day400 = 0 :=
  ⟨totalScore_aCom_eval, lengthScore_a_eval, patternScore_a_eval,
    tldScore_com_eval, activityScore_none_eval, expirationScore_day400_eval⟩

/-! ## Claim C2 -/

/-- Claim C2 (code bug): the claim (and the comment in the source,
"Normalize to 0-1 range") say the length factor clamps to exactly `1.0`
for labels shorter than 3 characters, but `calculateLengthScore` only
applies `Math.max(0, …)`: a length-1 label yields `1.1` and a length-2
label `1.05`.  The long-label side does clamp: a 24-character label
yields `0`. -/
theorem c2_length_clamp_code_bug :
    Scoring.calculateLengthScore "a" = 11 / 10 ∧
    Scoring.calculateLengthScore "ab" = 21 / 20 ∧
    Scoring.calculateLengthScore "aaaaaaaaaaaaaaaaaaaaaaaa" = 0 := by
  refine ⟨lengthScore_a_eval, ?_, ?_⟩
  · norm_num [Scoring.calculateLengthScore, show "ab".length = 2 from rfl]
  · norm_num [Scoring.calculateLengthScore,
      show "aaaaaaaaaaaaaaaaaaaaaaaa".length = 24 from rfl]

/-! ## Claim C3 -/

/-- Claim C3 (code bug): the displayed `length` sub-score is claimed to
be an integer in [0, 100], but for the length-1 label `a` the scorer
reports `round(1.1 × 100) = 110` (the missing upper clamp of
`calculateLengthScore` leaks into the display value; `totalScore` itself
is clamped). -/
theorem c3_breakdown_length_range_code_bug :
    (Scoring.calculateDomainScore aComDomain none none day400).breakdown.length = 110 ∧
    (110 : ℤ) > 100 :=
  ⟨breakdown_length_aCom_eval, by decide⟩

/-! ## Claim C6 -/

/-- Claim C6, counterexample: a name with no TLD (no dot at all) is NOT
rejected before scoring: `abc` passes the only boundary validation in
the code (`isValidDomainName`, whose TLD group is starred) and the
scorer then produces an ordinary breakdown for it, using the unknown-TLD
default factor 0.5 (displayed 50).  No `InvalidDomainNameError` exists
anywhere in the source. -/
theorem c6_reject_malformed_counterexample :
    DomaApi.isValidDomainName "abc" = true ∧
    (Scoring.calculateDomainScore noDotDomain none none 0).breakdown.tld = 50 := by
  constructor
  · decide
  · have ht : Scoring.calculateTLDScore "" = 1 / 2 := by
      norm_num [Scoring.calculateTLDScore,
        show Scoring.TLD_RARITY.lookup (toLowerStr "") = none from rfl]
    simp only [Scoring.calculateDomainScore, noDotDomain,
      show Scoring.extractTLD "abc" = "" from by decide, ht]
    norm_num [jsRound]

/-- Claim C6, amended: the scorer is total and never throws — its
`totalScore` is always clamped into [0, 100] — and a name with no TLD is
scored with the unknown-TLD default (sub-score 50) rather than rejected;
the boolean boundary validator `isValidDomainName` (there is no
`InvalidDomainNameError` type) rejects empty names and empty labels but
accepts names with no TLD. -/
theorem c6_no_throw_amended :
    (∀ (d : Domain) (s : Option DomainStats) (a : Option (List DomainActivity)) (now : Int),
      0 ≤ (Scoring.calculateDomainScore d s a now).totalScore ∧
        (Scoring.calculateDomainScore d s a now).totalScore ≤ 100) ∧
    (∀ (d : Domain) (s : Option DomainStats) (a : Option (List DomainActivity)) (now : Int),
      Scoring.extractTLD d.id = "" →
        (Scoring.calculateDomainScore d s a now).breakdown.tld = 50) ∧
    DomaApi.isValidDomainName "" = false ∧
    DomaApi.isValidDomainName "a..com" = false ∧
    DomaApi.isValidDomainName "abc" = true := by
  refine ⟨?_, ?_, by decide, by decide, by decide⟩
  · intro d s a now
    simp only [Scoring.calculateDomainScore]
    constructor <;> omega
  · intro d s a now h
    have ht : Scoring.calculateTLDScore "" = 1 / 2 := by
      norm_num [Scoring.calculateTLDScore,
        show Scoring.TLD_RARITY.lookup (toLowerStr "") = none from rfl]
    simp only [Scoring.calculateDomainScore, h, ht]
    norm_num [jsRound]

/-- Witness for `c6_no_throw_amended` at the dotless name `abc`. -/
theorem c6_no_throw_amended_witness :
    (Scoring.calculateDomainScore noDotDomain none none 0).breakdown.tld = 50 :=
  c6_no_throw_amended.2.1 noDotDomain none none 0 (by decide)

/-! ## Claim C7 -/

/-- Claim C7, counterexample: with the stats record missing but three
activities supplied, the code returns the bottom tier `0.2`, not the
claimed `max(salesCount, activityCount) = 3` tier `0.7`: the
`if (!stats) return 0.2` short-circuit never consults `activities`. -/
theorem c7_activity_tier_counterexample :
    Scoring.calculateActivityScore none
        (some [dummyActivity, dummyActivity, dummyActivity]) ≠
      claimActivityFactor 0 3 := by
  have h1 : Scoring.calculateActivityScore none
      (some [dummyActivity, dummyActivity, dummyActivity]) = 1 / 5 := by
    norm_num [Scoring.calculateActivityScore]
  have h2 : claimActivityFactor 0 3 = 7 / 10 := by
    norm_num [claimActivityFactor]
  rw [h1, h2]; norm_num

/-- Claim C7, amended: when stats are present the activity factor is
tiered on `max(salesCount, activities.length)` exactly as claimed
(≥10→1.0, ≥3→0.7, ≥1→0.4, else→0.2), and a missing `activities` array
counts as 0; but when the stats record itself is missing the factor is
the bottom tier 0.2 regardless of `activities`. -/
theorem c7_activity_tier_amended :
    ∀ (stats : Option DomainStats) (acts : Option (List DomainActivity)),
      Scoring.calculateActivityScore stats acts =
        match stats with
        | none => 0.2
        | some s => claimActivityFactor s.salesCount ((acts.map List.length).getD 0) := by
  intro stats acts
  cases stats with
  | none => rfl
  | some s =>
    simp only [Scoring.calculateActivityScore, claimActivityFactor]
    split_ifs <;> first | rfl | omega

/-! ## Claim C8 -/

/-- Claim C8, counterexample: the scorer's output is not a function of
the `DomainRecord` input alone — `calculateExpirationScore` reads the
system clock, so the same record with the same (absent) stats and
activities scores differently at two different instants (here: at the
creation instant the expiration sub-score is 100, at 400 days it is 0). -/
theorem c8_determinism_counterexample :
    Scoring.calculateDomainScore aComDomain none none 0 ≠
      Scoring.calculateDomainScore aComDomain none none day400 := by
  intro h
  have h2 := congrArg (fun r => r.breakdown.expiration) h
  have e1 : (Scoring.calculateDomainScore aComDomain none none 0).breakdown.expiration = 100 := by
    simp only [Scoring.calculateDomainScore, aComDomain, expirationScore_day0_eval]
    norm_num [jsRound]
  have e2 : (Scoring.calculateDomainScore aComDomain none none day400).breakdown.expiration = 0 := by
    simp only [Scoring.calculateDomainScore, aComDomain, expirationScore_day400_eval]
    norm_num [jsRound]
  simp only [] at h2
  rw [e1, e2] at h2
  exact absurd h2 (by decide)

/-- Claim C8, amended: the scorer is deterministic given the input
together with the evaluation instant — its output depends only on the
record's `labelName`, `id` and `createdAt` fields (plus stats,
activities and the clock); in particular two records differing in any
other field (e.g. `labelhash`) score identically at the same instant. -/
theorem c8_determinism_amended :
    ∀ (d₁ d₂ : Domain) (stats : Option DomainStats)
      (acts : Option (List DomainActivity)) (now : Int),
      d₁.labelName = d₂.labelName → d₁.id = d₂.id → d₁.createdAt = d₂.createdAt →
      Scoring.calculateDomainScore d₁ stats acts now =
        Scoring.calculateDomainScore d₂ stats acts now := by
  intro d₁ d₂ stats acts now h1 h2 h3
  cases d₁
  cases d₂
  dsimp only at h1 h2 h3
  subst h1; subst h2; subst h3
  rfl

/-- Witness for `c8_determinism_amended`: two records equal except for
`labelhash` score identically. -/
theorem c8_determinism_amended_witness :
    Scoring.calculateDomainScore ⟨"a.com", "a", "0xaaaa", 0⟩ none none 0 =
      Scoring.calculateDomainScore ⟨"a.com", "a", "0xbbbb", 0⟩ none none 0 :=
  c8_determinism_amended _ _ none none 0 rfl rfl rfl

/-! ## Sort-order lemmas for the trending ranker -/

namespace RealDataTrending

lemma sortLe_iff_rankedBefore (a b : RankedDomain) : sortLe a b ↔ rankedBefore a b := by
  simp only [sortLe, jsCompare, rankedBefore]
  split_ifs <;> omega

instance : IsTotal RankedDomain sortLe :=
  ⟨fun a b => by
    simp only [sortLe_iff_rankedBefore, rankedBefore]; omega⟩

instance : IsTrans RankedDomain sortLe :=
  ⟨fun a b c => by
    simp only [sortLe_iff_rankedBefore, rankedBefore]; omega⟩

lemma rankedBefore_of_fullKey_eq {a b : RankedDomain} (h : fullKey a = fullKey b) :
    rankedBefore a b := by
  simp only [fullKey, Prod.mk.injEq] at h
  simp only [rankedBefore]
  omega

end RealDataTrending

/-! ## Claim C9 -/

/-- Claim C9 (confirmed): the characteristics score of the trending
ranker always lies in [50, 100]: base 50 plus non-negative length, TLD,
premium-pattern and common-word bonuses, capped at 100. -/
theorem c9_characteristics_range :
    ∀ (nameWithoutTLD tld : String),
      50 ≤ RealDataTrending.calculateCharacteristicsScore nameWithoutTLD tld ∧
        RealDataTrending.calculateCharacteristicsScore nameWithoutTLD tld ≤ 100 := by
  intro n t
  simp only [RealDataTrending.calculateCharacteristicsScore]
  constructor <;> omega

/-! ## Claim C5 -/

/-- Claim C5 (confirmed): every domain scored by the trending ranker has
`trendingScore = round(0.2·priceScore + 0.2·activityScore +
0.2·offersScore + 0.4·characteristicsScore)`, with `activityScore`
tiered on the reported `activityCount` (≥10→100, ≥5→80, ≥3→60, ≥2→40,
else→20) and `offersScore` tiered on `activeOffersCount` (≥5→100,
≥3→80, ≥2→60, ≥1→40, else→20; an absent count is the else tier).  The
final conjunct states the activity tiering against the raw input count:
the code's `activityCount || 1` default lands in the same else tier as a
missing or zero count. -/
theorem c5_trending_score_formula :
    ∀ (l : List RealDataTrending.TrendingInput),
      (∀ r ∈ RealDataTrending.calculateTrendingScores l,
        r.trendingScore =
          jsRound ((r.priceScore : ℚ) * 0.2 + (r.activityScore : ℚ) * 0.2 +
            (r.offersScore : ℚ) * 0.2 + (r.characteristicsScore : ℚ) * 0.4) ∧
        r.activityScore =
          (if r.activityCount ≥ 10 then 100
           else if r.activityCount ≥ 5 then 80
           else if r.activityCount ≥ 3 then 60
           else if r.activityCount ≥ 2 then 40
           else 20) ∧
        r.offersScore =
          (if r.activeOffersCount.getD 0 ≥ 5 then 100
           else if r.activeOffersCount.getD 0 ≥ 3 then 80
           else if r.activeOffersCount.getD 0 ≥ 2 then 60
           else if r.activeOffersCount.getD 0 ≥ 1 then 40
           else 20)) ∧
      (∀ d ∈ l,
        (RealDataTrending.scoreDomain d).activityScore =
          (if d.activityCount.getD 0 ≥ 10 then 100
           else if d.activityCount.getD 0 ≥ 5 then 80
           else if d.activityCount.getD 0 ≥ 3 then 60
           else if d.activityCount.getD 0 ≥ 2 then 40
           else 20)) := by
  intro l
  constructor
  · intro r hr
    obtain ⟨d, _, rfl⟩ := List.mem_map.1 hr
    exact ⟨rfl, rfl, rfl⟩
  · intro d _
    show RealDataTrending.calculateActivityScore _ = _
    cases hd : d.activityCount with
    | none => rfl
    | some n =>
      simp only [Option.getD]
      by_cases hn : n = 0
      · subst hn; rfl
      · simp only [RealDataTrending.calculateActivityScore,
          show (n == 0) = false by simpa using hn, Bool.false_eq_true, if_false]

/-! ## Claim C4 -/

/-- Claim C4 (confirmed): for every input list and every limit, the
trending ranker returns at most `limit` elements; the output is pairwise
ordered by trendingScore descending with ties broken by activityCount
then activeOffersCount descending (`rankedBefore`); the output is
exactly the first `limit` elements of the stably sorted scored list; and
the sort preserves the input order of residually tied elements: for
every value of the full comparison key, filtering the sorted list to
that key yields exactly the same sequence as filtering the unsorted
scored list. -/
theorem c4_rank_limit_sorted_stable :
    ∀ (domains : List RealDataTrending.TrendingInput)
      (config : RealDataTrending.TrendingAlgorithmConfig) (now : Int),
      (RealDataTrending.execute domains config now).length ≤ config.limit ∧
      (RealDataTrending.execute domains config now).Pairwise RealDataTrending.rankedBefore ∧
      RealDataTrending.execute domains config now =
        (RealDataTrending.sortByTrendingScore
          (RealDataTrending.calculateTrendingScores
            (RealDataTrending.filterRecentDomains domains now))).take config.limit ∧
      ∀ v : ℤ × ℕ × ℕ,
        (RealDataTrending.sortByTrendingScore
            (RealDataTrending.calculateTrendingScores
              (RealDataTrending.filterRecentDomains domains now))).filter
            (fun r => decide (RealDataTrending.fullKey r = v)) =
          (RealDataTrending.calculateTrendingScores
              (RealDataTrending.filterRecentDomains domains now)).filter
            (fun r => decide (RealDataTrending.fullKey r = v)) := by
  intro domains config now
  refine ⟨?_, ?_, rfl, ?_⟩
  · simp only [RealDataTrending.execute, List.length_take]
    omega
  · simp only [RealDataTrending.execute]
    have hs := List.sorted_insertionSort RealDataTrending.sortLe
      (RealDataTrending.calculateTrendingScores
        (RealDataTrending.filterRecentDomains domains now))
    have hp := List.Pairwise.imp
      (fun h => (RealDataTrending.sortLe_iff_rankedBefore _ _).1 h) hs
    exact hp.sublist (List.take_sublist _ _)
  · intro v
    simp only [RealDataTrending.sortByTrendingScore]
    set l := RealDataTrending.calculateTrendingScores
      (RealDataTrending.filterRecentDomains domains now) with hl
    set P : RealDataTrending.RankedDomain → Bool :=
      fun r => decide (RealDataTrending.fullKey r = v) with hP
    have hpw : (l.filter P).Pairwise RealDataTrending.sortLe := by
      apply List.pairwise_of_forall_mem_list
      intro a ha b hb
      have hka : RealDataTrending.fullKey a = v := by
        simpa [hP] using List.of_mem_filter ha
      have hkb : RealDataTrending.fullKey b = v := by
        simpa [hP] using List.of_mem_filter hb
      exact (RealDataTrending.sortLe_iff_rankedBefore _ _).2
        (RealDataTrending.rankedBefore_of_fullKey_eq (hka.trans hkb.symm))
    have hsub : List.Sublist (l.filter P) (List.insertionSort RealDataTrending.sortLe l) :=
      List.sublist_insertionSort hpw (List.filter_sublist l)
    have hsub2 : List.Sublist (l.filter P)
        ((List.insertionSort RealDataTrending.sortLe l).filter P) := by
      have h2 := hsub.filter P
      rwa [List.filter_filter,
        show (fun a => P a && P a) = P from funext fun a => Bool.and_self _] at h2
    have hperm : List.Perm ((List.insertionSort RealDataTrending.sortLe l).filter P)
        (l.filter P) :=
      (List.perm_insertionSort RealDataTrending.sortLe l).filter P
    exact (hsub2.eq_of_length hperm.length_eq.symm).symm

/-! ## Claim C10 -/

/-- Claim C10, counterexample: with 36 domains whose `tokenizedAt` is
truthy but unparseable (`new Date` gives `NaN`), all 36 are "valid" for
the pre-filter (≥ 20), yet none lands in the recent or older bucket
(every `NaN` comparison is false), so the mixed list is empty and the
fallback passes `validDomains.slice(0, 50)` — 36 candidates, more than
the claimed maximum of 35 — to scoring. -/
theorem c10_prefilter_35_counterexample :
    20 ≤ ((List.replicate 36 badTrendingInput).filter
        RealDataTrending.isValidRecord).length ∧
      35 < (RealDataTrending.filterRecentDomains
        (List.replicate 36 badTrendingInput) 0).length := by
  constructor
  · decide
  · decide

/-- Claim C10, amended: every element surviving the pre-filter (and
hence every element of the ranked output) has truthy `tokenizedAt` and
`name`; and whenever at least 20 valid domains remain AND at least one
of them has a `tokenizedAt` that parses to a date, the pre-filter passes
at most 35 candidates (first 20 recent + first 15 older) to scoring.
(When no valid domain's date parses, the fallback passes up to 50.) -/
theorem c10_prefilter_amended :
    ∀ (domains : List RealDataTrending.TrendingInput)
      (config : RealDataTrending.TrendingAlgorithmConfig) (now : Int),
      (∀ r ∈ RealDataTrending.execute domains config now,
        r.tokenizedAt.isSome = true ∧ RealDataTrending.truthyName r.name = true) ∧
      (∀ d ∈ RealDataTrending.filterRecentDomains domains now,
        RealDataTrending.isValidRecord d = true) ∧
      (20 ≤ (domains.filter RealDataTrending.isValidRecord).length →
        (∃ d ∈ domains.filter RealDataTrending.isValidRecord,
          ∃ t : Int, d.tokenizedAt = some (.timeMs t)) →
        (RealDataTrending.filterRecentDomains domains now).length ≤ 35) := by
  intro domains config now
  have h2 : ∀ d ∈ RealDataTrending.filterRecentDomains domains now,
      RealDataTrending.isValidRecord d = true := by
    intro d hd
    simp only [RealDataTrending.filterRecentDomains] at hd
    split_ifs at hd with h20 hmix
    · rcases List.mem_append.1 hd with h | h
      · exact List.of_mem_filter ((List.mem_filter.1 (List.mem_of_mem_take h)).1)
      · exact List.of_mem_filter ((List.mem_filter.1 (List.mem_of_mem_take h)).1)
    · exact List.of_mem_filter (List.mem_of_mem_take hd)
    · exact List.of_mem_filter hd
  refine ⟨?_, h2, ?_⟩
  · intro r hr
    simp only [RealDataTrending.execute] at hr
    have hr2 := List.mem_of_mem_take hr
    simp only [RealDataTrending.sortByTrendingScore] at hr2
    have hr3 := (List.mem_insertionSort _).1 hr2
    obtain ⟨d, hd, rfl⟩ := List.mem_map.1 hr3
    have hv := h2 d hd
    simp only [RealDataTrending.isValidRecord, Bool.and_eq_true] at hv
    exact ⟨hv.1, hv.2⟩
  · intro h20 hex
    obtain ⟨d, hd, t, ht⟩ := hex
    simp only [RealDataTrending.filterRecentDomains]
    rw [if_pos h20]
    rcases le_or_lt (now - 7 * (24 * 60 * 60 * 1000)) t with hge | hlt
    · have hmemr : d ∈ (domains.filter RealDataTrending.isValidRecord).filter
          (fun d => (d.tokenizedAt.getD .invalid).geMs
            (now - 7 * (24 * 60 * 60 * 1000))) :=
        List.mem_filter.2 ⟨hd, by simp [ht, RealDataTrending.DateVal.geMs]; omega⟩
      have hpos1 := List.length_pos.2 (List.ne_nil_of_mem hmemr)
      rw [if_pos (show 0 < _ by
        simp only [List.length_append, List.length_take]; omega)]
      simp only [List.length_append, List.length_take]
      omega
    · have hmemo : d ∈ (domains.filter RealDataTrending.isValidRecord).filter
          (fun d => (d.tokenizedAt.getD .invalid).ltMs
            (now - 7 * (24 * 60 * 60 * 1000))) :=
        List.mem_filter.2 ⟨hd, by simp [ht, RealDataTrending.DateVal.ltMs]; omega⟩
      have hpos1 := List.length_pos.2 (List.ne_nil_of_mem hmemo)
      rw [if_pos (show 0 < _ by
        simp only [List.length_append, List.length_take]; omega)]
      simp only [List.length_append, List.length_take]
      omega

/-- Witness for `c10_prefilter_amended`: 20 valid domains with parseable
dates are cut to at most 35 candidates. -/
theorem c10_prefilter_amended_witness :
    (RealDataTrending.filterRecentDomains
      (List.replicate 20 goodTrendingInput) 0).length ≤ 35 :=
  (c10_prefilter_amended (List.replicate 20 goodTrendingInput) ⟨5⟩ 0).2.2
    (by decide)
    ⟨goodTrendingInput,
      List.mem_filter.2 ⟨List.mem_replicate.2 ⟨by decide, rfl⟩, by decide⟩,
      0, rfl⟩

/-- Witness for `c5_trending_score_formula` at a concrete input. -/
theorem c5_trending_score_formula_witness :
    (RealDataTrending.scoreDomain goodTrendingInput).trendingScore =
      jsRound
        (((RealDataTrending.scoreDomain goodTrendingInput).priceScore : ℚ) * 0.2 +
          ((RealDataTrending.scoreDomain goodTrendingInput).activityScore : ℚ) * 0.2 +
          ((RealDataTrending.scoreDomain goodTrendingInput).offersScore : ℚ) * 0.2 +
          ((RealDataTrending.scoreDomain goodTrendingInput).characteristicsScore : ℚ) * 0.4) :=
  ((c5_trending_score_formula [goodTrendingInput]).1
    (RealDataTrending.scoreDomain goodTrendingInput)
    (by simp [RealDataTrending.calculateTrendingScores])).1

end DomainFi
